import Mathlib

/-!
Verification of the `readability-python` repository against its natural-language
specification.  The Python sources under `readability/` and `cli/` are shallowly
embedded below: pure Python functions become Lean functions on `String`
(modelled as its list of Unicode code points), the CLI error taxonomy becomes a
small closed-world model of Python's class hierarchy, and the orchestrator
`parse` (whose implementation file is not part of the provided sources) is
modelled from the specification.
-/

set_option autoImplicit false

/-! ### Model of the Python string primitives used by the repository -/

/-- The set of characters Python treats as whitespace: `str.split()`,
`str.strip()` and `re`'s `\s` (with full Unicode semantics) all use this set.
Codepoints: 9–13, 28–31, 32, 0x85, 0xA0, 0x1680, 0x2000–0x200A, 0x2028,
0x2029, 0x202F, 0x205F, 0x3000. -/
def isPyWhitespace (c : Char) : Bool :=
  let n := c.toNat
  (9 ≤ n && n ≤ 13) || n == 32 || (28 ≤ n && n ≤ 31) || n == 133 || n == 160 ||
    n == 5760 || (8192 ≤ n && n ≤ 8202) || n == 8232 || n == 8233 ||
    n == 8239 || n == 8287 || n == 12288

/-- Helper for `pySplit`: walk the character list accumulating the current
word (in reverse); whitespace ends the current word, empty words are dropped.
This is Python's `str.split()` called with no separator. -/
def pySplitAux : List Char → List Char → List (List Char)
  | [], acc => if acc.isEmpty then [] else [acc.reverse]
  | c :: rest, acc =>
    if isPyWhitespace c then
      if acc.isEmpty then pySplitAux rest [] else acc.reverse :: pySplitAux rest []
    else pySplitAux rest (c :: acc)

/-- Model of Python `text.split()` (no argument): split on runs of whitespace,
discarding empty pieces, so leading and trailing whitespace produce nothing. -/
def pySplit (text : String) : List String :=
  (pySplitAux text.data []).map String.mk

/-- Model of Python `text.strip()` (no argument): remove leading and trailing
Python whitespace. -/
def pyStrip (text : String) : String :=
  String.mk (((text.data.dropWhile isPyWhitespace).reverse.dropWhile isPyWhitespace).reverse)

/-- ASCII lower-casing of one character, the case folding relevant to the
repository's `re.IGNORECASE` patterns, whose literals are all ASCII. -/
def lowerAsciiChar (c : Char) : Char :=
  if 'A' ≤ c && c ≤ 'Z' then Char.ofNat (c.toNat + 32) else c

/-- ASCII lower-casing of a string. -/
def toLowerAscii (s : String) : String :=
  String.mk (s.data.map lowerAsciiChar)

/-- `listContainsSub pat l` holds when `pat` occurs as a contiguous sublist of
`l`; this is substring search, i.e. Python `pat in s` / a successful
`re.search` of the literal `pat`. -/
def listContainsSub (pat : List Char) : List Char → Bool
  | [] => pat.isEmpty
  | c :: rest => pat.isPrefixOf (c :: rest) || listContainsSub pat rest

/-- Substring test on strings. -/
def strContainsSub (s pat : String) : Bool :=
  listContainsSub pat.data s.data

/-- Python `s.startswith(pat)`, computed on the code-point lists (the core
`String.startsWith` does not reduce inside the kernel). -/
def strStartsWith (s pat : String) : Bool :=
  pat.data.isPrefixOf s.data

/-- Python `s.endswith(pat)`, computed on the code-point lists. -/
def strEndsWith (s pat : String) : Bool :=
  pat.data.reverse.isPrefixOf s.data.reverse

/-! ### Embedding of `readability/utils.py` -/

namespace Utils

/-- Field record for Python `urllib.parse.ParseResult`; only the components
`to_absolute_uri` reads are modelled (`params` is never consulted). -/
structure ParseResult where
  scheme : String := ""
  netloc : String := ""
  path : String := ""
  query : String := ""
  fragment : String := ""
deriving DecidableEq, Repr

/-- A character allowed after the first position of a URL scheme. -/
def isSchemeChar (c : Char) : Bool :=
  c.isAlphanum || c == '+' || c == '-' || c == '.'

/-- Split a leading `scheme:` off a URL, Python-style: the text before the
first `:` counts as a scheme only when it is nonempty, starts with a letter
and consists of scheme characters; the scheme is lower-cased. -/
def splitScheme (url : List Char) : Option (List Char × List Char) :=
  let pre := url.takeWhile (fun c => c != ':')
  let post := url.drop pre.length
  match post with
  | ':' :: rest =>
    match pre with
    | [] => none
    | c :: cs =>
      if c.isAlpha && cs.all isSchemeChar then some (pre.map lowerAsciiChar, rest)
      else none
  | _ => none

/-- A character that terminates the network-location component. -/
def endsNetloc (c : Char) : Bool :=
  c == '/' || c == '?' || c == '#'

/-- Model of Python `urllib.parse.urlparse`, restricted to the behaviour
`to_absolute_uri` consumes: scheme and `//netloc` recognition, fragment and
query splitting, and the one failure mode of the real function — a
`ValueError` (`Invalid IPv6 URL`) when the network location contains an
unmatched square bracket. `params` splitting is not modelled. -/
def urlparse (url : String) : Except String ParseResult :=
  let (scheme, rest) :=
    match splitScheme url.data with
    | some (s, r) => (String.mk s, r)
    | none => ("", url.data)
  let (netloc, rest2) :=
    if ['/', '/'].isPrefixOf rest then
      let after := rest.drop 2
      (after.takeWhile (fun c => !endsNetloc c), after.dropWhile (fun c => !endsNetloc c))
    else ([], rest)
  if (netloc.contains '[' && !netloc.contains ']') ||
      (netloc.contains ']' && !netloc.contains '[') then
    Except.error "Invalid IPv6 URL"
  else
    let (beforeFrag, frag) :=
      let p := rest2.takeWhile (fun c => c != '#')
      (p, (rest2.drop p.length).drop 1)
    let (path, query) :=
      let p := beforeFrag.takeWhile (fun c => c != '?')
      (p, (beforeFrag.drop p.length).drop 1)
    Except.ok
      { scheme := scheme
        netloc := String.mk netloc
        path := String.mk path
        query := String.mk query
        fragment := String.mk frag }

/-- Reassemble a URL from components (model of `urllib.parse.urlunsplit`). -/
def unsplitUrl (scheme netloc path query fragment : String) : String :=
  (if scheme = "" then "" else scheme ++ ":") ++
    (if netloc = "" && !(strStartsWith path "//") then "" else "//" ++ netloc) ++
    path ++
    (if query = "" then "" else "?" ++ query) ++
    (if fragment = "" then "" else "#" ++ fragment)

/-- Merge a base path with a relative path (RFC 3986 §5.3 merge, without
dot-segment removal): drop the last segment of the base path and append. -/
def mergePaths (basePath relPath : String) : String :=
  String.mk ((basePath.data.reverse.dropWhile (fun c => c != '/')).reverse) ++ relPath

/-- Model of Python `urllib.parse.urljoin`, simplified: absolute references
win, network-path and absolute-path references take what they bring, other
references merge paths.  Dot-segment removal and the scheme
`uses_relative`/`uses_netloc` tables are not modelled; errors propagate from
`urlparse`.  `to_absolute_uri` treats this function as a black box, so the
theorems below depend only on it being applied, not on its internals. -/
def urljoin (base url : String) : Except String String :=
  match urlparse base with
  | Except.error e => Except.error e
  | Except.ok b =>
    match urlparse url with
    | Except.error e => Except.error e
    | Except.ok r =>
      if url = "" then Except.ok base
      else if r.scheme ≠ "" && r.scheme ≠ b.scheme then Except.ok url
      else if r.netloc ≠ "" then
        Except.ok (unsplitUrl b.scheme r.netloc r.path r.query r.fragment)
      else if r.path = "" then
        Except.ok (unsplitUrl b.scheme b.netloc b.path
          (if r.query = "" then b.query else r.query) r.fragment)
      else if strStartsWith r.path "/" then
        Except.ok (unsplitUrl b.scheme b.netloc r.path r.query r.fragment)
      else
        Except.ok (unsplitUrl b.scheme b.netloc (mergePaths b.path r.path) r.query r.fragment)

/-- Embedding of `utils.to_absolute_uri` (utils.py lines 65–99).  `if not uri
or not base: return uri`; hash and data URIs unchanged; already-absolute URIs
(scheme and netloc both present) unchanged; a `ValueError` from `urlparse`
returns the input; otherwise join against `scheme://netloc + path` of the
base, again returning the input if the join raises. -/
def to_absolute_uri (uri : String) (base : Option ParseResult) : String :=
  match base with
  | none => uri
  | some b =>
    if uri = "" then uri
    else if strStartsWith uri "#" then uri
    else if strStartsWith uri "data:" then uri
    else
      match urlparse uri with
      | Except.error _ => uri
      | Except.ok parsed =>
        if parsed.scheme ≠ "" ∧ parsed.netloc ≠ "" then uri
        else
          match urljoin (b.scheme ++ "://" ++ b.netloc ++ b.path) uri with
          | Except.ok result => result
          | Except.error _ => uri

/-- The rules stated by the specification for the URI resolver (spec §4.2 and
claim C2), written as their own function so the embedding of the code can be
compared against them: unchanged if empty / `#…` / `data:…` / already
absolute / unparsable; otherwise joined against `scheme://authority + path`
of the base when one is given; any join failure returns the input. -/
def toAbsoluteUriRules (uri : String) (base : Option ParseResult) : String :=
  if uri = "" then uri
  else if strStartsWith uri "#" then uri
  else if strStartsWith uri "data:" then uri
  else
    match urlparse uri with
    | Except.error _ => uri
    | Except.ok parsed =>
      if parsed.scheme ≠ "" ∧ parsed.netloc ≠ "" then uri
      else
        match base with
        | none => uri
        | some b =>
          match urljoin (b.scheme ++ "://" ++ b.netloc ++ b.path) uri with
          | Except.ok result => result
          | Except.error _ => uri

/-- Embedding of `utils.trim` (utils.py lines 142–153):
`' '.join(text.split())` followed by `.strip()`. -/
def trim (text : String) : String :=
  let normalized := String.intercalate " " (pySplit text)
  pyStrip normalized

/-- Embedding of `utils.normalize_spaces` (utils.py lines 156–167):
`' '.join(text.split())`.  Note that `str.split()` discards leading and
trailing whitespace, so this function trims even though its docstring says it
does not. -/
def normalize_spaces (text : String) : String :=
  String.intercalate " " (pySplit text)

end Utils

/-! ### Embedding of `readability/regexps.py` -/

namespace Regexps

/-- The alternatives of `RX_POSITIVE_CLASS` (regexps.py line 39); all are
plain literals, so `RX_POSITIVE_CLASS.search(s)` succeeds exactly when one of
them occurs in the lower-cased `s`. -/
def positiveClassLiterals : List String :=
  ["article", "body", "content", "entry", "hentry", "h-entry", "main", "page",
   "pagination", "post", "text", "blog", "story"]

/-- The unanchored alternatives of `RX_NEGATIVE_CLASS` (regexps.py line 40);
the four anchored `hid` alternatives are handled separately in
`negativeClassSearch`. -/
def negativeClassLiterals : List String :=
  ["-ad-", "hidden", "banner", "combx", "comment", "com-", "contact", "foot",
   "footer", "footnote", "gdpr", "masthead", "media", "meta", "outbrain",
   "promo", "related", "scroll", "share", "shoutbox", "sidebar", "skyscraper",
   "sponsor", "shopping", "tags", "tool", "widget"]

/-- Model of `RX_POSITIVE_CLASS.search(s) is not None`: case-insensitive
search for any of the literal alternatives. -/
def positiveClassSearch (s : String) : Bool :=
  let t := toLowerAscii s
  positiveClassLiterals.any (fun p => strContainsSub t p)

/-- Model of `RX_NEGATIVE_CLASS.search(s) is not None`: case-insensitive
search for any unanchored literal, or one of the four anchored forms
`^hid$`, `^hid `, ` hid$`, ` hid `. -/
def negativeClassSearch (s : String) : Bool :=
  let t := toLowerAscii s
  negativeClassLiterals.any (fun p => strContainsSub t p) ||
    t == "hid" || strStartsWith t "hid " || strEndsWith t " hid" ||
    strContainsSub t " hid "

/-- Embedding of `regexps.is_positive_class` (regexps.py lines 95–107):
`if not class_name: return False`, then the regex search. -/
def is_positive_class (class_name : String) : Bool :=
  if class_name = "" then false
  else positiveClassSearch class_name

/-- Embedding of `regexps.is_negative_class` (regexps.py lines 110–122). -/
def is_negative_class (class_name : String) : Bool :=
  if class_name = "" then false
  else negativeClassSearch class_name

/-- Embedding of `regexps.count_commas` (regexps.py lines 170–180):
`text.count(',')`.  Python's `str.count` with a one-character needle counts
exactly the occurrences of that character. -/
def count_commas (text : String) : Nat :=
  List.countP (fun c => c == ',') text.data

/-- The comma set the specification claims for `count_commas` (spec §4.3 and
claim C5): ASCII `,` plus the common CJK commas `，` and `、`; written as its
own function so it can be compared with the embedding of the code. -/
def countCommasClaim (text : String) : Nat :=
  List.countP (fun c => c == ',' || c == '，' || c == '、') text.data

/-- Helper for `Regexps.normalize_spaces`: replace every run of two or more
Python-whitespace characters by a single ASCII space, leaving isolated
whitespace characters untouched — exactly `RX_NORMALIZE_SPACES = \s{2,}`
substituted with `' '`.  The `fuel` argument only makes the recursion
structural; it is always called with more fuel than characters. -/
def normalizeSpacesAux : Nat → List Char → List Char
  | 0, l => l
  | _ + 1, [] => []
  | fuel + 1, c :: rest =>
    if isPyWhitespace c then
      match rest with
      | [] => [c]
      | d :: _ =>
        if isPyWhitespace d then
          ' ' :: normalizeSpacesAux fuel (rest.dropWhile isPyWhitespace)
        else c :: normalizeSpacesAux fuel rest
    else c :: normalizeSpacesAux fuel rest

/-- Embedding of `regexps.normalize_spaces` (regexps.py lines 183–192):
`RX_NORMALIZE_SPACES.sub(' ', text)` with `RX_NORMALIZE_SPACES = \s{2,}`. -/
def normalize_spaces (text : String) : String :=
  String.mk (normalizeSpacesAux (text.data.length + 1) text.data)

/-- Embedding of `regexps.evaluate_class_weight` (regexps.py lines 195–225):
start from 0; when `class_name` is truthy add 25 on a positive-regex hit and
subtract 25 on a negative-regex hit; likewise for `id_value`. -/
def evaluate_class_weight (class_name : String) (id_value : String) : Int :=
  let weight : Int := 0
  let weight :=
    if class_name ≠ "" then
      let weight := if positiveClassSearch class_name then weight + 25 else weight
      if negativeClassSearch class_name then weight - 25 else weight
    else weight
  let weight :=
    if id_value ≠ "" then
      let weight := if positiveClassSearch id_value then weight + 25 else weight
      if negativeClassSearch id_value then weight - 25 else weight
    else weight
  weight

end Regexps

/-! ### Embedding of `readability/models.py` -/

namespace Models

/-- Stand-in for a `bs4.Tag` reference: only node identity matters to the
`Article` record. -/
structure Tag where
  nodeId : Nat
deriving DecidableEq, Repr

/-- Stand-in for Python `datetime.datetime`, carried as its ISO-8601 text. -/
structure PyDatetime where
  isoText : String
deriving DecidableEq, Repr

/-- Embedding of the `Article` dataclass (models.py lines 10–30), with the
same fields in the same order and the same defaults: every field defaults to
`None` except `length`, which defaults to `0`. -/
structure Article where
  url : Option String := none
  title : Option String := none
  byline : Option String := none
  node : Option Tag := none
  content : Option String := none
  text_content : Option String := none
  length : Nat := 0
  excerpt : Option String := none
  site_name : Option String := none
  image : Option String := none
  favicon : Option String := none
  language : Option String := none
  published_time : Option PyDatetime := none
  modified_time : Option PyDatetime := none
deriving DecidableEq, Repr

/-- `Article()` constructed with no arguments. -/
def defaultArticle : Article := {}

/-- Closed world of the Python exception classes relevant to the library and
to `cli/main.py`'s `process_content` dispatch: `Exception`, the three classes
defined in models.py lines 33–45, and `ValueError` (raised by the `else`
branch of the dispatch). -/
inductive PyExcClass where
  | exceptionCls
  | valueErrorCls
  | parsingErrorCls
  | extractionErrorCls
  | metadataExtractionErrorCls
deriving DecidableEq, Repr

/-- The direct base class of each class, read off the `class` statements:
`ParsingError(Exception)`, `ExtractionError(ParsingError)`,
`MetadataExtractionError(ParsingError)`, and builtin
`ValueError(Exception)`. -/
def pyBase : PyExcClass → Option PyExcClass
  | .exceptionCls => none
  | .valueErrorCls => some .exceptionCls
  | .parsingErrorCls => some .exceptionCls
  | .extractionErrorCls => some .parsingErrorCls
  | .metadataExtractionErrorCls => some .parsingErrorCls

/-- The method-resolution chain of each class (the class followed by its
bases up to `Exception`), unfolded from `pyBase`. -/
def classChain : PyExcClass → List PyExcClass
  | .exceptionCls => [.exceptionCls]
  | .valueErrorCls => [.valueErrorCls, .exceptionCls]
  | .parsingErrorCls => [.parsingErrorCls, .exceptionCls]
  | .extractionErrorCls => [.extractionErrorCls, .parsingErrorCls, .exceptionCls]
  | .metadataExtractionErrorCls =>
    [.metadataExtractionErrorCls, .parsingErrorCls, .exceptionCls]

/-- `pyIsInstance c target` models `isinstance(e, Target)` for a value `e`
whose concrete class is `c`: it holds when `target` appears in `c`'s base
chain. -/
def pyIsInstance (c target : PyExcClass) : Bool :=
  classChain c |>.contains target

/-- A Python exception value: its concrete class plus its message. -/
structure PyException where
  cls : PyExcClass
  msg : String
deriving DecidableEq, Repr

end Models

/-! ### Embedding of `cli/errors.py` -/

namespace CliErrors

/-- Embedding of the `ErrorType` enum (errors.py lines 25–38). -/
inductive ErrorType where
  | SUCCESS
  | INPUT
  | NETWORK
  | PARSING
  | OUTPUT
  | PERMISSION
  | ENCODING
  | RESOURCE
  | TIMEOUT
  | VALIDATION
  | UNKNOWN
deriving DecidableEq, Repr

/-- The `.value` of each `ErrorType` member, as assigned in errors.py. -/
def ErrorType.value : ErrorType → Nat
  | .SUCCESS => 0
  | .INPUT => 1
  | .NETWORK => 2
  | .PARSING => 3
  | .OUTPUT => 4
  | .PERMISSION => 5
  | .ENCODING => 6
  | .RESOURCE => 7
  | .TIMEOUT => 8
  | .VALIDATION => 9
  | .UNKNOWN => 10

end CliErrors

/-! ### Embedding of `cli/main.py` -/

namespace CliMain

/-- Exit-code constant from cli/main.py line 363. -/
def EXIT_SUCCESS : Nat := 0

/-- Exit-code constant from cli/main.py line 364. -/
def EXIT_ERROR_INPUT : Nat := 1

/-- Exit-code constant from cli/main.py line 365. -/
def EXIT_ERROR_NETWORK : Nat := 2

/-- Exit-code constant from cli/main.py line 366. -/
def EXIT_ERROR_PARSING : Nat := 3

/-- Exit-code constant from cli/main.py line 367. -/
def EXIT_ERROR_OUTPUT : Nat := 4

/-- Exit-code constant from cli/main.py line 368. -/
def EXIT_ERROR_UNKNOWN : Nat := 10

/-- All `EXIT_*` constants defined in cli/main.py lines 362–368; there are
exactly six, and none for permission errors. -/
def exitConstants : List Nat :=
  [EXIT_SUCCESS, EXIT_ERROR_INPUT, EXIT_ERROR_NETWORK, EXIT_ERROR_PARSING,
   EXIT_ERROR_OUTPUT, EXIT_ERROR_UNKNOWN]

/-- The three `raise` branches of the `if error:` dispatch in
`process_content` (cli/main.py lines 277–283). -/
inductive ErrorBranch where
  | raiseParsing
  | raiseExtraction
  | raiseValue
deriving DecidableEq, Repr

/-- Embedding of the `if error:` dispatch of `process_content` (cli/main.py
lines 277–283): `isinstance(error, ParsingError)` first, then
`isinstance(error, ExtractionError)`, else `ValueError`.  The argument is the
concrete class of the non-`None` error value returned by `parse`. -/
def processContentErrorBranch (c : Models.PyExcClass) : ErrorBranch :=
  if Models.pyIsInstance c .parsingErrorCls then ErrorBranch.raiseParsing
  else if Models.pyIsInstance c .extractionErrorCls then ErrorBranch.raiseExtraction
  else ErrorBranch.raiseValue

end CliMain

/-! ### Model of the orchestrator `Readability.parse`

The parser module itself (`readability/parser.py`) is not among the provided
sources — only its callers (`cli/main.py`), its data model (`models.py`) and
its tests are — so the orchestrator is modelled from the specification
(spec §4.11, §4.12, §6, §7). -/

namespace Orchestrator

/-- Modelled from the spec: `parse(html, url?, encoding?)` accepts both
decoded strings and raw byte sequences (spec §6). -/
inductive HtmlInput where
  | str : String → HtmlInput
  | bytes : List Nat → HtmlInput
deriving DecidableEq, Repr

/-- Modelled from the spec: decoding of the input; bytes are decoded with the
given or detected encoding (spec §4.12).  The decoding itself is modelled as
reading each byte-sequence element as a code point; the encoding name only
selects a codec and does not change the shape of the result. -/
def decodeInput (html : HtmlInput) (_encoding : Option String) : String :=
  match html with
  | .str s => s
  | .bytes b => String.mk (b.map Char.ofNat)

/-- Modelled from the spec: the parsed document, reduced to the text content
the retry controller measures (the DOM structure itself is not needed by the
claims settled here). -/
structure Dom where
  bodyText : String
deriving DecidableEq, Repr

/-- Modelled from the spec: HTML parsing; a `ParsingError` arises when the
HTML cannot be tokenized or tree-built at all, and in particular for empty
input (spec §7, §8 "Empty input → (None, ParsingError)"); any other input
yields a document tree. -/
def parseDOM (s : String) : Option Dom :=
  if s = "" then none else some { bodyText := s }

/-- Modelled from the spec: the three engine-wide flags toggled by the retry
controller (spec §3 "Flags"). -/
structure Flags where
  stripUnlikely : Bool
  weightClasses : Bool
  cleanConditionally : Bool
deriving DecidableEq, Repr

/-- Modelled from the spec: the retry controller relaxes the flags one at a
time, all three starting true (spec §4.11). -/
def flagSequence : List Flags :=
  [⟨true, true, true⟩, ⟨false, true, true⟩, ⟨false, false, true⟩,
   ⟨false, false, false⟩]

/-- Modelled from the spec: one scoring/assembly/cleaning attempt
(spec §4.7–§4.10), reduced to its observable outcome: it produces an article
whose `text_content` is the normalized document text and whose `length` is
`char_count(text_content)`, or nothing when the document has no content to
assemble (spec §8 "Input with no body content → (None, ExtractionError)"). -/
def attemptExtract (dom : Dom) (url : Option String) (_flags : Flags) :
    Option Models.Article :=
  let text := Utils.trim dom.bodyText
  if text = "" then none
  else some { url := url, text_content := some text, length := text.length }

/-- Modelled from the spec: the retry controller (spec §4.11): run the
attempts in flag order, accept the first whose content length reaches 500,
otherwise return the best of the successful attempts; no successful attempt
means no article was detected. -/
def retryExtract (dom : Dom) (url : Option String) : Option Models.Article :=
  let attempts := flagSequence.map (attemptExtract dom url)
  let successes := attempts.filterMap id
  match successes.find? (fun a => 500 ≤ a.length) with
  | some a => some a
  | none =>
    match successes with
    | [] => none
    | a :: rest =>
      some (rest.foldl (fun best x => if best.length < x.length then x else best) a)

/-- Modelled from the spec: the orchestrator `parse` (spec §4.12): decode,
parse the DOM, extract with retries; on parse failure return
`(None, ParsingError)`, on no-article-found return `(None, ExtractionError)`,
otherwise `(Article, None)`.  The function is total, so no exception escapes
to the caller (spec §7 "No exception-style control flow escapes the
orchestrator"). -/
def parse (html : HtmlInput) (url : Option String) (encoding : Option String) :
    Option Models.Article × Option Models.PyException :=
  match parseDOM (decodeInput html encoding) with
  | none => (none, some ⟨.parsingErrorCls, "failed to parse HTML document"⟩)
  | some dom =>
    match retryExtract dom url with
    | none => (none, some ⟨.extractionErrorCls, "no article content detected"⟩)
    | some article => (some article, none)

end Orchestrator

/-! ### Helper lemmas -/

theorem positiveClassSearch_empty : Regexps.positiveClassSearch "" = false := by
  decide

theorem negativeClassSearch_empty : Regexps.negativeClassSearch "" = false := by
  decide

theorem countP_comma_eq_of_no_cjk (l : List Char)
    (h : ∀ c ∈ l, c ≠ '，' ∧ c ≠ '、') :
    List.countP (fun c => c == ',') l =
      List.countP (fun c => c == ',' || c == '，' || c == '、') l := by
  induction l with
  | nil => rfl
  | cons c cs ih =>
    have hc := h c (List.mem_cons_self c cs)
    have hrest : ∀ a ∈ cs, a ≠ '，' ∧ a ≠ '、' :=
      fun a ha => h a (List.mem_cons_of_mem c ha)
    have hpred : (c == ',' || c == '，' || c == '、') = (c == ',') := by
      rcases hc with ⟨h1, h2⟩
      have e1 : (c == '，') = false := beq_eq_false_iff_ne.mpr h1
      have e2 : (c == '、') = false := beq_eq_false_iff_ne.mpr h2
      rw [e1, e2, Bool.or_false, Bool.or_false]
    rw [List.countP_cons, List.countP_cons, hpred, ih hrest]

/-! ### Claim theorems -/

/-- Claim C3: the specification says `normalize_spaces` collapses whitespace
runs without trimming, with `normalize_spaces(' a  b ') == ' a b '`.  The
`regexps.py` implementation behaves that way, but the `utils.py`
implementation (whose own docstring also promises not to strip) returns
`'a b'`: it trims, contradicting its documentation and the claim. -/
theorem normalize_spaces_example_divergence :
    Utils.normalize_spaces " a  b " = "a b" ∧
      Regexps.normalize_spaces " a  b " = " a b " ∧
      Utils.normalize_spaces " a  b " ≠ " a b " := by
  decide

/-- Claim C4: `evaluate_class_weight(class, id)` is the sum, over the two
strings, of +25 per positive-class-regex hit and −25 per
negative-class-regex hit; and the three table values from the spec hold. -/
theorem evaluate_class_weight_is_sum_of_hits :
    (∀ c i : String,
      Regexps.evaluate_class_weight c i =
        (if Regexps.positiveClassSearch c then (25 : Int) else 0) +
        (if Regexps.negativeClassSearch c then (-25 : Int) else 0) +
        (if Regexps.positiveClassSearch i then (25 : Int) else 0) +
        (if Regexps.negativeClassSearch i then (-25 : Int) else 0)) ∧
      Regexps.evaluate_class_weight "" "" = 0 ∧
      Regexps.evaluate_class_weight "article" "" = 25 ∧
      Regexps.evaluate_class_weight "article sidebar" "" = 0 := by
  refine ⟨?_, by decide, by decide, by decide⟩
  intro c i
  rcases eq_or_ne c "" with hc | hc <;> rcases eq_or_ne i "" with hi | hi <;>
    simp only [Regexps.evaluate_class_weight, hc, hi, ne_eq,
      not_true_eq_false, not_false_eq_true, if_true, if_false,
      positiveClassSearch_empty, negativeClassSearch_empty,
      Bool.false_eq_true, ite_false] <;>
    first
    | omega
    | (split_ifs <;> omega)

/-- Claim C5 counterexample: the claim says `count_commas` counts CJK commas
such as `，` and `、`, but the code (`text.count(',')`) counts only the ASCII
comma: on the one-character inputs `，` and `、` it returns 0 while the
claimed comma set yields 1. -/
theorem count_commas_cjk_counterexample :
    Regexps.count_commas "，" = 0 ∧ Regexps.countCommasClaim "，" = 1 ∧
      Regexps.count_commas "、" = 0 ∧ Regexps.countCommasClaim "、" = 1 ∧
      Regexps.count_commas "，" ≠ Regexps.countCommasClaim "，" := by
  decide

/-- Claim C5 (amended): `count_commas` counts occurrences of the ASCII comma
only; it agrees with the claimed CJK-inclusive count exactly on strings that
contain no CJK comma. -/
theorem count_commas_counts_ascii_only (s : String)
    (h : ∀ c ∈ s.data, c ≠ '，' ∧ c ≠ '、') :
    Regexps.count_commas s = Regexps.countCommasClaim s :=
  countP_comma_eq_of_no_cjk s.data h

/-- Witness for `count_commas_counts_ascii_only` at the concrete input
`"one, two, three"`. -/
theorem count_commas_counts_ascii_only_witness :
    (∀ c ∈ ("one, two, three" : String).data, c ≠ '，' ∧ c ≠ '、') ∧
      Regexps.count_commas "one, two, three" =
        Regexps.countCommasClaim "one, two, three" :=
  ⟨by decide, count_commas_counts_ascii_only "one, two, three" (by decide)⟩

/-- Claim C6: `trim(s) == normalize_spaces(s).strip()` holds for the
`utils.py` pair: `trim` computes `' '.join(text.split())` and then strips,
which is exactly `normalize_spaces` followed by `.strip()`. -/
theorem trim_eq_normalize_spaces_strip :
    ∀ s : String, Utils.trim s = pyStrip (Utils.normalize_spaces s) :=
  fun _ => rfl

/-- Claim C7 counterexample: the claimed exit-code table maps permission
errors to 5, and `ErrorType.PERMISSION.value` is indeed 5, but no `EXIT_*`
constant of cli/main.py carries the value 5, so the `EXIT_*` constants do not
realize the permission row of the table. -/
theorem exit_constants_lack_permission_code :
    CliErrors.ErrorType.value CliErrors.ErrorType.PERMISSION = 5 ∧
      CliMain.exitConstants.contains 5 = false := by
  decide

/-- Claim C7 (amended): the `ErrorType` enum realizes the full table
(input=1, network=2, parsing=3, output=4, permission=5, unknown=10); the
`EXIT_*` constants realize the same table except that no permission constant
exists — they are exactly success=0, input=1, network=2, parsing=3, output=4,
unknown=10. -/
theorem error_kind_exit_code_table :
    CliErrors.ErrorType.value CliErrors.ErrorType.INPUT = 1 ∧
      CliErrors.ErrorType.value CliErrors.ErrorType.NETWORK = 2 ∧
      CliErrors.ErrorType.value CliErrors.ErrorType.PARSING = 3 ∧
      CliErrors.ErrorType.value CliErrors.ErrorType.OUTPUT = 4 ∧
      CliErrors.ErrorType.value CliErrors.ErrorType.PERMISSION = 5 ∧
      CliErrors.ErrorType.value CliErrors.ErrorType.UNKNOWN = 10 ∧
      CliMain.exitConstants = [0, 1, 2, 3, 4, 10] := by
  decide

/-- Claim C8: a freshly constructed `Article` has every optional field equal
to `None` and `length` equal to 0. -/
theorem default_article_fields :
    Models.defaultArticle.url = none ∧
      Models.defaultArticle.title = none ∧
      Models.defaultArticle.byline = none ∧
      Models.defaultArticle.node = none ∧
      Models.defaultArticle.content = none ∧
      Models.defaultArticle.text_content = none ∧
      Models.defaultArticle.length = 0 ∧
      Models.defaultArticle.excerpt = none ∧
      Models.defaultArticle.site_name = none ∧
      Models.defaultArticle.image = none ∧
      Models.defaultArticle.favicon = none ∧
      Models.defaultArticle.language = none ∧
      Models.defaultArticle.published_time = none ∧
      Models.defaultArticle.modified_time = none :=
  ⟨rfl, rfl, rfl, rfl, rfl, rfl, rfl, rfl, rfl, rfl, rfl, rfl, rfl, rfl⟩

/-- Claim C9: `ExtractionError` and `MetadataExtractionError` are subclasses
of `ParsingError`, so `isinstance(e, ParsingError)` holds for every
`ExtractionError` value, and the `elif isinstance(error, ExtractionError)`
branch of `process_content` is unreachable for every possible error class. -/
theorem extraction_error_branch_unreachable :
    Models.pyIsInstance Models.PyExcClass.extractionErrorCls
        Models.PyExcClass.parsingErrorCls = true ∧
      Models.pyIsInstance Models.PyExcClass.metadataExtractionErrorCls
        Models.PyExcClass.parsingErrorCls = true ∧
      ∀ c : Models.PyExcClass,
        CliMain.processContentErrorBranch c ≠ CliMain.ErrorBranch.raiseExtraction := by
  refine ⟨rfl, rfl, ?_⟩
  intro c
  cases c <;> decide

/-- Claim C10: the consolidated `evaluate_class_weight` returns exactly the
sum computed from the separate predicates `is_positive_class` and
`is_negative_class` on both arguments. -/
theorem evaluate_class_weight_matches_predicates :
    ∀ c i : String,
      Regexps.evaluate_class_weight c i =
        (if Regexps.is_positive_class c then (25 : Int) else 0) -
        (if Regexps.is_negative_class c then (25 : Int) else 0) +
        (if Regexps.is_positive_class i then (25 : Int) else 0) -
        (if Regexps.is_negative_class i then (25 : Int) else 0) := by
  intro c i
  rcases eq_or_ne c "" with hc | hc <;> rcases eq_or_ne i "" with hi | hi <;>
    simp only [Regexps.evaluate_class_weight, Regexps.is_positive_class,
      Regexps.is_negative_class, hc, hi, ne_eq, not_true_eq_false,
      not_false_eq_true, if_true, if_false, Bool.false_eq_true, ite_false,
      ite_true] <;>
    first
    | omega
    | (split_ifs <;> omega)

/-- Claim C2: `to_absolute_uri(uri, base)` follows exactly the rules stated
by the specification: unchanged when the URI is empty, starts with `#`,
starts with `data:`, is already absolute (scheme and authority present), or
cannot be parsed; unchanged when no base is given; otherwise joined against
`scheme://authority + path` of the base, with any join failure also
returning the input unchanged.  Totality of the Lean function captures the
"never fails" clause. -/
theorem to_absolute_uri_follows_rules :
    ∀ (uri : String) (base : Option Utils.ParseResult),
      Utils.to_absolute_uri uri base = Utils.toAbsoluteUriRules uri base := by
  intro u b
  cases b with
  | some pb => rfl
  | none =>
    show u = Utils.toAbsoluteUriRules u none
    unfold Utils.toAbsoluteUriRules
    split_ifs <;> try rfl
    cases Utils.urlparse u with
    | error e => rfl
    | ok parsed =>
      dsimp only
      split_ifs <;> rfl

/-- Claim C1: `parse(html, url?, encoding?)` returns a pair with exactly one
component set: `(None, ParsingError)` when the HTML cannot be parsed (in
particular for empty input), `(None, ExtractionError)` when no article is
detected after all retries, and `(Article, None)` otherwise; the only error
classes ever returned are `ParsingError` and `ExtractionError`, and the
function is total, so no exception escapes to the caller.  Settled against
the spec-modelled orchestrator, since `readability/parser.py` is not among
the provided sources. -/
theorem parse_result_pair_contract :
    ∀ (html : Orchestrator.HtmlInput) (url encoding : Option String),
      ((Orchestrator.parse html url encoding).1.isSome ↔
        (Orchestrator.parse html url encoding).2 = none) ∧
      (∀ e, (Orchestrator.parse html url encoding).2 = some e →
        e.cls = Models.PyExcClass.parsingErrorCls ∨
        e.cls = Models.PyExcClass.extractionErrorCls) ∧
      (Orchestrator.parseDOM (Orchestrator.decodeInput html encoding) = none →
        Orchestrator.parse html url encoding =
          (none, some ⟨Models.PyExcClass.parsingErrorCls,
            "failed to parse HTML document"⟩)) ∧
      (∀ dom,
        Orchestrator.parseDOM (Orchestrator.decodeInput html encoding) = some dom →
        Orchestrator.retryExtract dom url = none →
        Orchestrator.parse html url encoding =
          (none, some ⟨Models.PyExcClass.extractionErrorCls,
            "no article content detected"⟩)) ∧
      (∀ dom article,
        Orchestrator.parseDOM (Orchestrator.decodeInput html encoding) = some dom →
        Orchestrator.retryExtract dom url = some article →
        Orchestrator.parse html url encoding = (some article, none)) := by
  intro html url encoding
  refine ⟨?_, ?_, ?_, ?_, ?_⟩
  · cases hdom : Orchestrator.parseDOM (Orchestrator.decodeInput html encoding) with
    | none => simp [Orchestrator.parse, hdom]
    | some dom =>
      cases hext : Orchestrator.retryExtract dom url with
      | none => simp [Orchestrator.parse, hdom, hext]
      | some article => simp [Orchestrator.parse, hdom, hext]
  · intro e he
    cases hdom : Orchestrator.parseDOM (Orchestrator.decodeInput html encoding) with
    | none =>
      simp only [Orchestrator.parse, hdom, Option.some.injEq] at he
      subst he
      left
      rfl
    | some dom =>
      cases hext : Orchestrator.retryExtract dom url with
      | none =>
        simp only [Orchestrator.parse, hdom, hext, Option.some.injEq] at he
        subst he
        right
        rfl
      | some article =>
        simp only [Orchestrator.parse, hdom, hext] at he
        exact absurd he (by simp)
  · intro hdom
    simp [Orchestrator.parse, hdom]
  · intro dom hdom hext
    simp [Orchestrator.parse, hdom, hext]
  · intro dom article hdom hext
    simp [Orchestrator.parse, hdom, hext]

/-- Witness for `parse_result_pair_contract`: the empty string fails to
parse, a whitespace-only document parses but yields no article, and a
nonempty document yields an article with no error. -/
theorem parse_result_pair_contract_witness :
    Orchestrator.parse (Orchestrator.HtmlInput.str "") none none =
        (none, some ⟨Models.PyExcClass.parsingErrorCls,
          "failed to parse HTML document"⟩) ∧
      Orchestrator.parse (Orchestrator.HtmlInput.str " ") none none =
        (none, some ⟨Models.PyExcClass.extractionErrorCls,
          "no article content detected"⟩) ∧
      Orchestrator.parse (Orchestrator.HtmlInput.str "hi") none none =
        (some { url := none, text_content := some "hi", length := 2 }, none) :=
  ⟨(parse_result_pair_contract (Orchestrator.HtmlInput.str "") none none).2.2.1
      (by decide),
    (parse_result_pair_contract (Orchestrator.HtmlInput.str " ") none none).2.2.2.1
      ⟨" "⟩ (by decide) (by decide),
    (parse_result_pair_contract (Orchestrator.HtmlInput.str "hi") none none).2.2.2.2
      ⟨"hi"⟩ { url := none, text_content := some "hi", length := 2 }
      (by decide) (by decide)⟩
